import Mathlib

/-!
Device SSH server (agent/sshd/server.go): shallow embedding.

The Go server keeps a mutex-guarded table `cmds` from session id to the
command handle of the process serving that session, authenticates by password
or public key, and wraps every accepted connection so that closing it kills
the process registered for the session id bound in the connection context.

Conventions of the embedding:

* mutable server state and the observable effects are threaded explicitly in
  a `World`: the `Server` record plus the trace of effects performed so far,
  oldest first;
* a Go pointer that may be nil is an `Option`; a nil dereference or a failed
  single-value type assertion is the outcome `panicked`;
* functions that server.go calls but whose bodies are outside the translated
  file (the OS account database, the process and pty helpers, the backend
  client, the crypto and encoding libraries) are fields of `Env` or of `Api`;
* the session handler blocks in `Wait`; it is split at that call into
  `sessionHandlerBegin` and `sessionHandlerEnd` so that a connection close
  can be interleaved while the handler is blocked.
-/

namespace Sshd

/-! ## Data model -/

/-- Byte strings (values of Go type []byte), one number per byte. -/
abbrev Bytes := List Nat

/-- Account record behind the pointer returned by osauth.LookupUser; only the
fields read by server.go. -/
structure User where
  UID : Nat
  Shell : String
deriving DecidableEq, Repr

/-- Command handle (Go type *exec.Cmd); `Pid` stands for the process behind
`cmd.Process`. -/
structure Cmd where
  Path : String
  Args : List String
  Pid : Nat
deriving DecidableEq, Repr

/-- Login-accounting token returned by utmpStartSession. -/
structure Utmp where
  token : Nat
deriving DecidableEq, Repr

/-- Body of models.DeviceAuthResponse as far as server.go reads it. -/
structure DeviceAuthResponse where
  Token : String
deriving DecidableEq, Repr

/-- Request sent to the backend by publicKeyHandler
(models.PublicKeyAuthRequest). -/
structure PublicKeyAuthRequest where
  Fingerprint : String
  Data : Bytes
deriving DecidableEq, Repr

/-- Answer of the backend (models.PublicKeyAuthResponse): the signature in
base64 text. -/
structure PublicKeyAuthResponse where
  Signature : String
deriving DecidableEq, Repr

/-- Backend client (client.Client) as far as server.go uses it: the error
case of AuthPublicKey carries the error text. -/
structure Api where
  AuthPublicKey : PublicKeyAuthRequest → String → Except String PublicKeyAuthResponse

/-- An RSA public key (Go type *rsa.PublicKey). -/
structure RSAPublicKey where
  N : Nat
  E : Nat
deriving DecidableEq, Repr

/-- Dynamic type of the value returned by CryptoPublicKey(): an RSA key or a
key of another algorithm. -/
inductive CryptoKey where
  | rsa (k : RSAPublicKey)
  | other (alg : String)
deriving DecidableEq, Repr

/-- A presented public key (sshserver.PublicKey): its wire form and, when the
key implements ssh.CryptoPublicKey, the crypto key it wraps. -/
structure PublicKey where
  blob : Bytes
  crypto : Option CryptoKey
deriving DecidableEq, Repr

/-- Value stored in a connection context under ContextKeySessionID: nothing,
a string, or a value of some other dynamic type. -/
inductive CtxValue where
  | absent
  | str (id : String)
  | other (typeName : String)
deriving DecidableEq, Repr

/-- Observable effects, in the order server.go performs them. -/
inductive Event where
  | log (msg : String)
  | warn (err : String)
  | keepAlive (seconds : Int)
  | startPty (c : Cmd)
  | chown (pts : String) (uid : Nat)
  | utmpStart (pts user addr : String)
  | utmpEnd (ut : Utmp)
  | lock
  | unlock
  | pipes (c : Cmd)
  | start (c : Cmd)
  | copyIn (c : Cmd)
  | copyOut (c : Cmd)
  | wait (c : Cmd)
  | kill (c : Cmd)
  | connClose
  | authUser (user pass : String)
  | verifyPasswordHash (hash pass : String)
  | authPublicKey (req : PublicKeyAuthRequest) (token : String)
deriving DecidableEq, Repr

/-! ## Go maps with string keys -/

/-- Map lookup `v, ok := m[id]`: `none` when the key is absent. -/
def mapLookup {α : Type} : List (String × α) → String → Option α
  | [], _ => none
  | (k, v) :: t, id => if k = id then some v else mapLookup t id

/-- Go builtin `delete(m, id)`. -/
def mapDelete {α : Type} (m : List (String × α)) (id : String) : List (String × α) :=
  m.filter (fun e => decide (e.1 ≠ id))

/-- Map assignment `m[id] = v`. -/
def mapInsert {α : Type} (m : List (String × α)) (id : String) (v : α) : List (String × α) :=
  (id, v) :: mapDelete m id

/-! ## Server state -/

/-- The Server struct. The embedded sshd configuration only routes to the
handlers below and the mutex is visible through the lock and unlock events. -/
structure Server where
  api : Api
  authData : Option DeviceAuthResponse
  cmds : List (String × Cmd)
  Sessions : List (String × Nat)
  deviceName : String
  keepAliveInterval : Int
  singleUserPassword : String

/-- Server state together with the trace of effects performed so far. -/
structure World where
  srv : Server
  trace : List Event

/-- Append one effect to the trace. -/
def World.emit (w : World) (e : Event) : World :=
  { w with trace := w.trace ++ [e] }

/-- The effect of `if err != nil then logrus.Warn(err)`. -/
def World.warnIf (w : World) (err : Option String) : World :=
  match err with
  | some e => w.emit (.warn e)
  | none => w

/-- The events of `if err != nil then logrus.Warn(err)`. -/
def warnEvents : Option String → List Event
  | some e => [.warn e]
  | none => []

/-- Processes that were sent a kill in a trace, in order. -/
def killed : List Event → List Cmd
  | [] => []
  | .kill c :: t => c :: killed t
  | _ :: t => killed t

/-- Result of running Go code that may panic. -/
inductive Outcome (α : Type) where
  | returned (a : α)
  | panicked (why : String)
deriving DecidableEq, Repr

/-! ## NewServer and the connection wrapper -/

/-- NewServer: the struct literal sets api, authData, the two empty maps and
keepAliveInterval; every other field keeps its zero value. The host key option
only configures the embedded sshd. -/
def NewServer (api : Api) (authData : Option DeviceAuthResponse) (privateKey : String)
    (keepAliveInterval : Int) (singleUserPassword : String) : Server :=
  { api := api
    authData := authData
    cmds := []
    Sessions := []
    deviceName := ""
    keepAliveInterval := keepAliveInterval
    singleUserPassword := "" }

/-- SetDeviceName. -/
def SetDeviceName (s : Server) (name : String) : Server :=
  { s with deviceName := name }

/-- The closeCallback closure built in ConnCallback: under the lock, kill the
process registered under the id and delete the entry, when there is one. -/
def closeCallback (id : String) (w : World) : World :=
  let w := w.emit .lock
  match mapLookup w.srv.cmds id with
  | some v =>
    let w := w.emit (.kill v)
    let w := { w with srv := { w.srv with cmds := mapDelete w.srv.cmds id } }
    w.emit .unlock
  | none => w.emit .unlock

/-- The sshConn struct over a state type: the embedded transport is given by
its Close method, the context by the value it holds under
ContextKeySessionID. -/
structure sshConn (σ : Type) where
  Conn : σ → Option String × σ
  closeCallback : String → σ → σ
  ctx : CtxValue

/-- Method sshConn.Close. -/
def sshConn.Close {σ : Type} (c : sshConn σ) (w : σ) : Option String × σ :=
  match c.ctx with
  | .str id => c.Conn (c.closeCallback id w)
  | _ => c.Conn w

/-- ConnCallback of NewServer: wrap a transport with the server closeCallback
and the connection context. -/
def ConnCallback (ctx : CtxValue) (conn : World → Option String × World) : sshConn World :=
  { Conn := conn, closeCallback := closeCallback, ctx := ctx }

/-- A transport whose Close releases the connection and returns `err`. -/
def netConn (err : Option String) (w : World) : Option String × World :=
  (err, w.emit .connClose)

/-- Calls made by sshConn.Close, for counting them. -/
inductive ConnCall where
  | callback (id : String)
  | transportClose
deriving DecidableEq, Repr

/-- The same connection with every call of its two function fields recorded
in a log carried next to the state. -/
def sshConn.traced {σ : Type} (c : sshConn σ) : sshConn (σ × List ConnCall) :=
  { Conn := fun p => ((c.Conn p.1).1, ((c.Conn p.1).2, p.2 ++ [.transportClose]))
    closeCallback := fun id p => (c.closeCallback id p.1, p.2 ++ [.callback id])
    ctx := c.ctx }

/-! ## The environment of the server -/

/-- Functions called by server.go whose bodies lie outside it. `LookupUser`
returns `none` for a nil pointer; `newCmd` returns `none` when the call does
not return (it panics, for instance on a nil user); `startPty` returns the
name of the pty file, `none` for a nil file, and the error; `Wait`, `Chown`
and `cmdStart` return the error; `VerifyPKCS1v15` is true when the Go
function returns a nil error. -/
structure Env where
  Getenv : String → String
  LookupUser : String → Option User
  AuthUser : String → String → Bool
  VerifyPasswordHash : String → String → Bool
  newCmd : Option User → String → String → String → List String → Option Cmd
  startPty : Cmd → Option String × Option String
  Chown : String → Nat → Option String
  utmpStartSession : String → String → String → Utmp
  cmdStart : Cmd → Option String
  Wait : Cmd → Option String
  jsonMarshal : String → String → Except String Bytes
  sha256 : Bytes → Bytes
  FingerprintLegacyMD5 : PublicKey → String
  base64Decode : String → Option Bytes
  VerifyPKCS1v15 : RSAPublicKey → Bytes → Bytes → Bool

/-- What a session object answers to the calls made by sessionHandler. -/
structure Session where
  User : String
  isPty : Bool
  Term : String
  RemoteAddr : String
  LocalAddr : String
  Command : List String
  RawCommand : String
  ctxSessionID : CtxValue
deriving DecidableEq, Repr

/-! ## Authentication handlers -/

/-- Method passwordHandler. -/
def passwordHandler (env : Env) (user pass : String) (w : World) : Bool × World :=
  let r : Bool × World :=
    if w.srv.singleUserPassword = "" then
      (env.AuthUser user pass, w.emit (.authUser user pass))
    else
      (env.VerifyPasswordHash w.srv.singleUserPassword pass,
        w.emit (.verifyPasswordHash w.srv.singleUserPassword pass))
  if r.1 then (r.1, r.2.emit (.log "Accepted password"))
  else (r.1, r.2.emit (.log "Failed password"))

/-- Method publicKeyHandler. The only effect is the call to the backend; a
nil authData panics when its Token is read. -/
def publicKeyHandler (env : Env) (user : String) (key : PublicKey) (w : World) :
    Outcome Bool × World :=
  match env.LookupUser user with
  | none => (.returned false, w)
  | some _ =>
    match env.jsonMarshal user w.srv.deviceName with
    | .error _ => (.returned false, w)
    | .ok sigBytes =>
      let sigHash := env.sha256 sigBytes
      let req : PublicKeyAuthRequest :=
        { Fingerprint := env.FingerprintLegacyMD5 key, Data := sigBytes }
      match w.srv.authData with
      | none => (.panicked "nil pointer dereference", w)
      | some authData =>
        let w := w.emit (.authPublicKey req authData.Token)
        match w.srv.api.AuthPublicKey req authData.Token with
        | .error _ => (.returned false, w)
        | .ok res =>
          match env.base64Decode res.Signature with
          | none => (.returned false, w)
          | some digest =>
            match key.crypto with
            | none => (.returned false, w)
            | some (.other _) => (.returned false, w)
            | some (.rsa pubKey) =>
              if env.VerifyPKCS1v15 pubKey sigHash digest then (.returned true, w)
              else (.returned false, w)

/-! ## Session handler -/

/-- Function newShellCmd; `none` when it panics (the Shell of a nil user is
read, or newCmd does not return). -/
def newShellCmd (env : Env) (s : Server) (username term : String) : Option Cmd :=
  let shell := env.Getenv "SHELL"
  let u := env.LookupUser username
  let shell? : Option String := if shell = "" then u.map (fun x => x.Shell) else some shell
  match shell? with
  | none => none
  | some shell =>
    let term := if term = "" then "xterm" else term
    env.newCmd u shell term s.deviceName [shell, "--login"]

/-- Where sessionHandler is blocked in Wait, with the local variables still
live after the call. -/
inductive Blocked where
  | pty (scmd : Cmd) (pts : String) (ut : Utmp)
  | exec (cmd : Cmd)
deriving DecidableEq, Repr

/-- Method sessionHandler from its entry up to and including the call of
Wait. -/
def sessionHandlerBegin (env : Env) (session : Session) (w : World) :
    Outcome Blocked × World :=
  let w := w.emit (.log "New session request")
  let w := w.emit (.keepAlive w.srv.keepAliveInterval)
  if session.isPty then
    match newShellCmd env w.srv session.User session.Term with
    | none => (.panicked "nil pointer dereference", w)
    | some scmd =>
      let w := w.emit (.startPty scmd)
      let w := w.warnIf (env.startPty scmd).2
      let u := env.LookupUser session.User
      match (env.startPty scmd).1 with
      | none => (.panicked "nil pointer dereference", w)
      | some pts =>
        match u with
        | none => (.panicked "nil pointer dereference", w)
        | some u =>
          let w := w.emit (.chown pts u.UID)
          let w := w.warnIf (env.Chown pts u.UID)
          let w := w.emit (.log "Session started")
          let ut := env.utmpStartSession pts session.User session.RemoteAddr
          let w := w.emit (.utmpStart pts session.User session.RemoteAddr)
          let w := w.emit .lock
          match session.ctxSessionID with
          | .str id =>
            let w := { w with srv := { w.srv with cmds := mapInsert w.srv.cmds id scmd } }
            let w := w.emit .unlock
            let w := w.emit (.wait scmd)
            (.returned (.pty scmd pts ut), w)
          | _ => (.panicked "interface conversion", w)
  else
    let u := env.LookupUser session.User
    match env.newCmd u "" "" w.srv.deviceName session.Command with
    | none => (.panicked "nil pointer dereference", w)
    | some cmd =>
      let w := w.emit (.pipes cmd)
      let w := w.emit (.log "Command started")
      let w := w.emit (.start cmd)
      let w := w.warnIf (env.cmdStart cmd)
      let w := w.emit (.copyIn cmd)
      let w := w.emit (.copyOut cmd)
      let w := w.emit (.wait cmd)
      (.returned (.exec cmd), w)

/-- Method sessionHandler from the return of Wait, with error `err`, to its
end. -/
def sessionHandlerEnd (b : Blocked) (err : Option String) (w : World) : World :=
  match b with
  | .pty _ _ ut =>
    let w := w.warnIf err
    let w := w.emit (.log "Session ended")
    w.emit (.utmpEnd ut)
  | .exec _ =>
    let w := w.warnIf err
    w.emit (.log "Command ended")

/-- The command a blocked handler waits for. -/
def Blocked.cmd : Blocked → Cmd
  | .pty scmd _ _ => scmd
  | .exec cmd => cmd

/-- Method sessionHandler run without interruption: the process exits by
itself and Wait returns what the environment says. -/
def sessionHandler (env : Env) (session : Session) (w : World) : Outcome Unit × World :=
  match sessionHandlerBegin env session w with
  | (.returned b, w1) => (.returned (), sessionHandlerEnd b (env.Wait b.cmd) w1)
  | (.panicked why, w1) => (.panicked why, w1)

/-- A session whose connection is closed while the handler is blocked in
Wait: the handler runs up to Wait, the wrapped connection built by
ConnCallback is closed, Wait returns `killedErr` and the handler finishes. -/
def sessionClosedWhileWaiting (env : Env) (session : Session) (connErr : Option String)
    (killedErr : Option String) (w : World) : Outcome Unit × World :=
  match sessionHandlerBegin env session w with
  | (.returned b, w1) =>
    let w2 := ((ConnCallback session.ctxSessionID (netConn connErr)).Close w1).2
    (.returned (), sessionHandlerEnd b killedErr w2)
  | (.panicked why, w1) => (.panicked why, w1)

/-! ## Concrete inputs used by the witnesses and counterexamples -/

/-- A backend that refuses every key. -/
def apiDeny : Api :=
  { AuthPublicKey := fun _ _ => .error "unauthorized" }

/-- Two running shells. -/
def shellA : Cmd := { Path := "/bin/bash", Args := ["/bin/bash", "--login"], Pid := 101 }

/-- The second running shell. -/
def shellB : Cmd := { Path := "/bin/sh", Args := ["/bin/sh", "--login"], Pid := 202 }

/-- A server with two registered sessions and an empty trace. -/
def worldAB : World :=
  { srv :=
      { api := apiDeny
        authData := some { Token := "tok" }
        cmds := [("sess-a", shellA), ("sess-b", shellB)]
        Sessions := []
        deviceName := "dev"
        keepAliveInterval := 30
        singleUserPassword := "" }
    trace := [] }

/-- An environment with the accounts alice and bob, SHELL unset, a newCmd
that needs a user, and toy stand-ins for the encoding and crypto functions. -/
def envStd : Env :=
  { Getenv := fun _ => ""
    LookupUser := fun n =>
      if n = "alice" then some { UID := 1000, Shell := "/bin/bash" }
      else if n = "bob" then some { UID := 1001, Shell := "/bin/sh" }
      else none
    AuthUser := fun u p => decide (u = "alice" ∧ p = "wonderland")
    VerifyPasswordHash := fun h p => decide (h = "hash-of-" ++ p)
    newCmd := fun u _ _ _ command =>
      match u with
      | none => none
      | some u => some { Path := command.headD "", Args := command, Pid := 4000 + u.UID }
    startPty := fun _ => (some "/dev/pts/3", none)
    Chown := fun _ _ => none
    utmpStartSession := fun _ _ _ => { token := 7 }
    cmdStart := fun _ => none
    Wait := fun _ => none
    jsonMarshal := fun u n => .ok ((u ++ "@" ++ n).toList.map Char.toNat)
    sha256 := fun b => b
    FingerprintLegacyMD5 := fun _ => "aa:bb"
    base64Decode := fun s => some (s.toList.map Char.toNat)
    VerifyPKCS1v15 := fun _ h sig => decide (sig = h) }

/-- The same environment with SHELL set and a newCmd that also returns for a
nil user. -/
def envLenient : Env :=
  { envStd with
    Getenv := fun _ => "/bin/sh"
    newCmd := fun _ _ _ _ command =>
      some { Path := command.headD "", Args := command, Pid := 4999 } }

/-- A freshly built server named dev, with an empty trace. -/
def world0 : World :=
  { srv := SetDeviceName (NewServer apiDeny (some { Token := "tok" }) "/etc/ssh.key" 30 "") "dev"
    trace := [] }

/-- An interactive session of alice. -/
def ptyAlice : Session :=
  { User := "alice", isPty := true, Term := "xterm-256color"
    RemoteAddr := "10.0.0.5:50022", LocalAddr := "10.0.0.1:22"
    Command := [], RawCommand := "", ctxSessionID := .str "sess-1" }

/-- The shell started for ptyAlice by envStd. -/
def aliceShell : Cmd :=
  { Path := "/bin/bash", Args := ["/bin/bash", "--login"], Pid := 5000 }

/-- A command session of bob. -/
def execBob : Session :=
  { User := "bob", isPty := false, Term := ""
    RemoteAddr := "10.0.0.6:40100", LocalAddr := "10.0.0.1:22"
    Command := ["ls", "-la"], RawCommand := "ls -la", ctxSessionID := .str "sess-2" }

/-- The process started for execBob by envStd. -/
def bobLs : Cmd :=
  { Path := "ls", Args := ["ls", "-la"], Pid := 5001 }

/-- An interactive session for a name without a local account. -/
def ptyGhost : Session :=
  { User := "ghost", isPty := true, Term := "xterm"
    RemoteAddr := "10.0.0.7:40200", LocalAddr := "10.0.0.1:22"
    Command := [], RawCommand := "", ctxSessionID := .str "sess-3" }

/-- An RSA key as presented by a client. -/
def rsaKey : PublicKey :=
  { blob := [1, 2, 3], crypto := some (.rsa { N := 3233, E := 17 }) }

/-- A backend that answers every request with the signature text `sig`. -/
def apiSign (sig : String) : Api :=
  { AuthPublicKey := fun _ _ => .ok { Signature := sig } }

/-- The server world0 with another backend client. -/
def worldApi (api : Api) : World :=
  { srv := { world0.srv with api := api }, trace := [] }

/-- A server value in single-user mode: its password hash field is set. -/
def worldSingle : World :=
  { srv := { world0.srv with singleUserPassword := "hash-of-secret" }, trace := [] }

/-! ## The critical section of the PTY branch and the state of the mutex -/

/-- The three statements of sessionHandler that register the command: take
the lock, assign `s.cmds[id] = scmd`, release the lock. -/
def registerCmd (id : String) (scmd : Cmd) (w : World) : World :=
  let w := w.emit .lock
  let w := { w with srv := { w.srv with cmds := mapInsert w.srv.cmds id scmd } }
  w.emit .unlock

/-- Whether the mutex is held after the events of a trace, given whether it
was held before them. -/
def lockHeldFrom (held : Bool) : List Event → Bool
  | [] => held
  | .lock :: t => lockHeldFrom true t
  | .unlock :: t => lockHeldFrom false t
  | _ :: t => lockHeldFrom held t

/-- Whether the mutex is held at the end of a trace that starts with the
mutex free. -/
def lockHeld (tr : List Event) : Bool :=
  lockHeldFrom false tr

/-- A key of another algorithm than RSA. -/
def edKey : PublicKey :=
  { blob := [4, 5, 6], crypto := some (.other "ssh-ed25519") }

/-- A key object that does not implement ssh.CryptoPublicKey. -/
def bareKey : PublicKey :=
  { blob := [7, 8, 9], crypto := none }

end Sshd

namespace Sshd

/-! ## Lemmas on maps and traces -/

theorem mapDelete_cons_self {α : Type} (t : List (String × α)) (id : String) (v : α) :
    mapDelete ((id, v) :: t) id = mapDelete t id := by
  simp [mapDelete, List.filter_cons]

theorem mapDelete_cons_ne {α : Type} (t : List (String × α)) (k id : String) (v : α)
    (h : k ≠ id) : mapDelete ((k, v) :: t) id = (k, v) :: mapDelete t id := by
  simp [mapDelete, List.filter_cons, h]

theorem mapLookup_cons_self {α : Type} (t : List (String × α)) (id : String) (v : α) :
    mapLookup ((id, v) :: t) id = some v := by
  simp [mapLookup]

theorem mapLookup_cons_ne {α : Type} (t : List (String × α)) (k id : String) (v : α)
    (h : k ≠ id) : mapLookup ((k, v) :: t) id = mapLookup t id := by
  simp [mapLookup, h]

theorem mapLookup_mapDelete_self {α : Type} (m : List (String × α)) (id : String) :
    mapLookup (mapDelete m id) id = none := by
  induction m with
  | nil => rfl
  | cons e t ih =>
    obtain ⟨k, v⟩ := e
    by_cases h : k = id
    · subst h
      rw [mapDelete_cons_self]
      exact ih
    · rw [mapDelete_cons_ne _ _ _ _ h, mapLookup_cons_ne _ _ _ _ h]
      exact ih

theorem mapLookup_mapDelete_ne {α : Type} (m : List (String × α)) (a b : String)
    (hab : a ≠ b) : mapLookup (mapDelete m a) b = mapLookup m b := by
  induction m with
  | nil => rfl
  | cons e t ih =>
    obtain ⟨k, v⟩ := e
    by_cases h : k = a
    · subst h
      rw [mapDelete_cons_self, mapLookup_cons_ne _ _ _ _ hab]
      exact ih
    · rw [mapDelete_cons_ne _ _ _ _ h]
      by_cases h2 : k = b
      · subst h2
        rw [mapLookup_cons_self, mapLookup_cons_self]
      · rw [mapLookup_cons_ne _ _ _ _ h2, mapLookup_cons_ne _ _ _ _ h2]
        exact ih

theorem mapDelete_of_mapLookup_none {α : Type} (m : List (String × α)) (id : String)
    (hm : mapLookup m id = none) : mapDelete m id = m := by
  induction m with
  | nil => rfl
  | cons e t ih =>
    obtain ⟨k, v⟩ := e
    by_cases h : k = id
    · subst h
      rw [mapLookup_cons_self] at hm
      cases hm
    · rw [mapLookup_cons_ne _ _ _ _ h] at hm
      rw [mapDelete_cons_ne _ _ _ _ h, ih hm]

theorem mapLookup_mapInsert_self {α : Type} (m : List (String × α)) (id : String) (v : α) :
    mapLookup (mapInsert m id v) id = some v := by
  simp [mapInsert, mapLookup]

theorem mapLookup_mapInsert_ne {α : Type} (m : List (String × α)) (a b : String) (v : α)
    (hab : a ≠ b) : mapLookup (mapInsert m a v) b = mapLookup m b := by
  simp [mapInsert, mapLookup, hab, mapLookup_mapDelete_ne m a b hab]

theorem killed_append (xs ys : List Event) : killed (xs ++ ys) = killed xs ++ killed ys := by
  induction xs with
  | nil => rfl
  | cons e t ih => cases e <;> simp [killed, ih]

theorem closeCallback_present (w : World) (id : String) (v : Cmd)
    (h : mapLookup w.srv.cmds id = some v) :
    closeCallback id w =
      { srv := { w.srv with cmds := mapDelete w.srv.cmds id }
        trace := w.trace ++ [.lock, .kill v, .unlock] } := by
  simp [closeCallback, World.emit, h]

theorem closeCallback_absent (w : World) (id : String)
    (h : mapLookup w.srv.cmds id = none) :
    closeCallback id w = { srv := w.srv, trace := w.trace ++ [.lock, .unlock] } := by
  simp [closeCallback, World.emit, h]

theorem killed_closeCallback (w : World) (id : String) :
    killed (closeCallback id w).trace = killed w.trace ++ (mapLookup w.srv.cmds id).toList := by
  cases h : mapLookup w.srv.cmds id with
  | none =>
    rw [closeCallback_absent w id h]
    simp [killed_append, killed]
  | some v =>
    rw [closeCallback_present w id v h]
    simp [killed_append, killed]

/-! ## The close callback (kill and forget) -/

/-- C1: the close callback, for an id present in cmds, extends the trace by
exactly lock, one kill of the process registered under that id, unlock, and
leaves the table with that id deleted (the id is then absent and every other
id looks up as before); for an absent id it sends no kill and leaves the
server state unchanged. -/
theorem closeCallback_kill_and_forget (w : World) (id : String) :
    (∀ v, mapLookup w.srv.cmds id = some v →
      (closeCallback id w).trace = w.trace ++ [.lock, .kill v, .unlock] ∧
      killed (closeCallback id w).trace = killed w.trace ++ [v] ∧
      (closeCallback id w).srv.cmds = mapDelete w.srv.cmds id ∧
      mapLookup (closeCallback id w).srv.cmds id = none ∧
      (∀ k, k ≠ id → mapLookup (closeCallback id w).srv.cmds k = mapLookup w.srv.cmds k)) ∧
    (mapLookup w.srv.cmds id = none →
      (closeCallback id w).trace = w.trace ++ [.lock, .unlock] ∧
      killed (closeCallback id w).trace = killed w.trace ∧
      (closeCallback id w).srv = w.srv) := by
  constructor
  · intro v h
    rw [closeCallback_present w id v h]
    refine ⟨rfl, ?_, rfl, ?_, ?_⟩
    · simp [killed_append, killed]
    · exact mapLookup_mapDelete_self _ _
    · intro k hk
      exact mapLookup_mapDelete_ne _ _ _ (Ne.symm hk)
  · intro h
    rw [closeCallback_absent w id h]
    refine ⟨rfl, ?_, rfl⟩
    simp [killed_append, killed]

/-- Witness of C1: closing session sess-a of the two-session server kills
shellA only, and closing an unknown id kills nothing. -/
theorem closeCallback_kill_and_forget_witness :
    mapLookup worldAB.srv.cmds "sess-a" = some shellA ∧
    killed (closeCallback "sess-a" worldAB).trace = killed worldAB.trace ++ [shellA] ∧
    mapLookup (closeCallback "sess-a" worldAB).srv.cmds "sess-a" = none ∧
    mapLookup worldAB.srv.cmds "sess-z" = none ∧
    (closeCallback "sess-z" worldAB).srv = worldAB.srv :=
  ⟨by decide,
   ((closeCallback_kill_and_forget worldAB "sess-a").1 shellA (by decide)).2.1,
   ((closeCallback_kill_and_forget worldAB "sess-a").1 shellA (by decide)).2.2.2.1,
   by decide,
   ((closeCallback_kill_and_forget worldAB "sess-z").2 (by decide)).2.2⟩

/-- C4: running the close callback twice for the same id leaves the same
server state as running it once, the second run adds only lock and unlock to
the trace and so sends no kill; for an id that is absent at the start neither
run sends a kill and the server state is the initial one. -/
theorem closeCallback_idempotent (w : World) (id : String) :
    (closeCallback id (closeCallback id w)).srv = (closeCallback id w).srv ∧
    (closeCallback id (closeCallback id w)).trace =
      (closeCallback id w).trace ++ [.lock, .unlock] ∧
    killed (closeCallback id (closeCallback id w)).trace = killed (closeCallback id w).trace ∧
    (mapLookup w.srv.cmds id = none →
      killed (closeCallback id w).trace = killed w.trace ∧
      killed (closeCallback id (closeCallback id w)).trace = killed w.trace ∧
      (closeCallback id w).srv = w.srv ∧
      (closeCallback id (closeCallback id w)).srv = w.srv) := by
  have hgone : mapLookup (closeCallback id w).srv.cmds id = none := by
    cases h : mapLookup w.srv.cmds id with
    | none => rw [closeCallback_absent w id h]; exact h
    | some v => rw [closeCallback_present w id v h]; exact mapLookup_mapDelete_self _ _
  have h2 := closeCallback_absent (closeCallback id w) id hgone
  refine ⟨by rw [h2], by rw [h2], ?_, ?_⟩
  · rw [h2]
    simp [killed_append, killed]
  · intro h
    have h1 := closeCallback_absent w id h
    have hk : killed (closeCallback id w).trace = killed w.trace := by
      rw [h1]
      simp [killed_append, killed]
    refine ⟨hk, ?_, by rw [h1], by rw [h2, h1]⟩
    rw [h2]
    simp only [killed_append, killed, List.append_nil]
    exact hk

/-- Witness of C4 on the two-session server: sess-a is present at first,
sess-z never is. -/
theorem closeCallback_idempotent_witness :
    mapLookup worldAB.srv.cmds "sess-z" = none ∧
    killed (closeCallback "sess-z" (closeCallback "sess-z" worldAB)).trace = killed worldAB.trace ∧
    killed (closeCallback "sess-a" (closeCallback "sess-a" worldAB)).trace =
      killed (closeCallback "sess-a" worldAB).trace :=
  ⟨by decide,
   ((closeCallback_idempotent worldAB "sess-z").2.2.2 (by decide)).2.1,
   (closeCallback_idempotent worldAB "sess-a").2.2.1⟩

/-- C5: for distinct ids a and b the close callback for a leaves the lookup
of b unchanged; the kills it sends are exactly the handle registered under a,
if any, so the process registered under b, being another process than the one
under a, receives no kill. -/
theorem closeCallback_frame (w : World) (a b : String) (hab : a ≠ b) :
    mapLookup (closeCallback a w).srv.cmds b = mapLookup w.srv.cmds b ∧
    killed (closeCallback a w).trace = killed w.trace ++ (mapLookup w.srv.cmds a).toList ∧
    (∀ vb, mapLookup w.srv.cmds b = some vb → mapLookup w.srv.cmds a ≠ some vb →
      (killed (closeCallback a w).trace).count vb = (killed w.trace).count vb) := by
  cases h : mapLookup w.srv.cmds a with
  | none =>
    rw [closeCallback_absent w a h]
    refine ⟨rfl, ?_, ?_⟩
    · simp [killed_append, killed]
    · intro vb _ _
      simp [killed_append, killed]
  | some va =>
    rw [closeCallback_present w a va h]
    refine ⟨mapLookup_mapDelete_ne _ _ _ hab, ?_, ?_⟩
    · simp [killed_append, killed]
    · intro vb _ hne
      have hva : va ≠ vb := fun e => hne (by rw [e])
      simp [killed_append, killed, List.count_cons, hva]

/-- Witness of C5: closing sess-a leaves sess-b registered with shellB and
sends shellB no kill. -/
theorem closeCallback_frame_witness :
    "sess-a" ≠ "sess-b" ∧
    mapLookup (closeCallback "sess-a" worldAB).srv.cmds "sess-b" = some shellB ∧
    (killed (closeCallback "sess-a" worldAB).trace).count shellB = 0 :=
  ⟨by decide,
   (closeCallback_frame worldAB "sess-a" "sess-b" (by decide)).1,
   (closeCallback_frame worldAB "sess-a" "sess-b" (by decide)).2.2 shellB
     (by decide) (by decide)⟩

/-! ## The connection wrapper -/

theorem ConnCallback_Close_str (id : String) (err : Option String) (w : World) :
    (ConnCallback (.str id) (netConn err)).Close w = (err, (closeCallback id w).emit .connClose) := by
  rfl

/-- C9: Close of a wrapped connection calls the transport Close exactly once,
last, on the state left by the callback, and returns its result; when the
context holds a string session id the callback is called exactly once, with
that id and before the transport Close; when it holds no string the callback
is not called. Recording the calls does not change what Close computes. -/
theorem sshConn_Close_calls {σ : Type} (c : sshConn σ) (w : σ) :
    (∀ id, c.ctx = .str id →
      (c.traced.Close (w, [])).2.2 = [.callback id, .transportClose] ∧
      c.Close w = c.Conn (c.closeCallback id w)) ∧
    ((∀ id, c.ctx ≠ .str id) →
      (c.traced.Close (w, [])).2.2 = [.transportClose] ∧
      c.Close w = c.Conn w) ∧
    ((c.traced.Close (w, [])).1, (c.traced.Close (w, [])).2.1) = c.Close w := by
  refine ⟨?_, ?_, ?_⟩
  · intro id h
    simp [sshConn.Close, sshConn.traced, h]
  · intro h
    cases hc : c.ctx with
    | str id => exact absurd hc (h id)
    | absent => simp [sshConn.Close, sshConn.traced, hc]
    | other t => simp [sshConn.Close, sshConn.traced, hc]
  · cases hc : c.ctx <;> simp [sshConn.Close, sshConn.traced, hc]

/-- Witness of C9 on the server connection: with sess-a bound, the callback
runs once before the transport is closed; with nothing bound only the
transport is closed. -/
theorem sshConn_Close_calls_witness :
    ((ConnCallback (.str "sess-a") (netConn none)).traced.Close (worldAB, [])).2.2 =
      [.callback "sess-a", .transportClose] ∧
    ((ConnCallback .absent (netConn none)).traced.Close (worldAB, [])).2.2 =
      [.transportClose] :=
  ⟨((sshConn_Close_calls (ConnCallback (.str "sess-a") (netConn none)) worldAB).1
      "sess-a" rfl).1,
   ((sshConn_Close_calls (ConnCallback .absent (netConn none)) worldAB).2.1
      (by intro id h; cases h)).1⟩

/-! ## The session handler -/

theorem warnIf_eq (w : World) (err : Option String) :
    w.warnIf err = { srv := w.srv, trace := w.trace ++ warnEvents err } := by
  cases err <;> simp [World.warnIf, warnEvents, World.emit]

theorem killed_warnEvents (err : Option String) : killed (warnEvents err) = [] := by
  cases err <;> rfl

theorem sessionHandlerBegin_pty (env : Env) (session : Session) (w : World)
    (scmd : Cmd) (pts : String) (u : User) (id : String)
    (hpty : session.isPty = true)
    (hcmd : newShellCmd env w.srv session.User session.Term = some scmd)
    (hpts : (env.startPty scmd).1 = some pts)
    (hu : env.LookupUser session.User = some u)
    (hid : session.ctxSessionID = .str id) :
    sessionHandlerBegin env session w =
      (.returned (.pty scmd pts (env.utmpStartSession pts session.User session.RemoteAddr)),
       { srv := { w.srv with cmds := mapInsert w.srv.cmds id scmd }
         trace := w.trace ++ [.log "New session request", .keepAlive w.srv.keepAliveInterval,
             .startPty scmd] ++ warnEvents (env.startPty scmd).2 ++ [.chown pts u.UID] ++
           warnEvents (env.Chown pts u.UID) ++
           [.log "Session started", .utmpStart pts session.User session.RemoteAddr,
             .lock, .unlock, .wait scmd] }) := by
  have hcmd2 : newShellCmd env (World.emit (World.emit w (.log "New session request"))
      (.keepAlive w.srv.keepAliveInterval)).srv session.User session.Term = some scmd := hcmd
  simp only [sessionHandlerBegin, hpty, if_true]
  simp only [World.emit] at hcmd2 ⊢
  rw [hcmd2]
  simp only [hpts, hu, hid, warnIf_eq]
  simp [List.append_assoc]

theorem sessionHandlerBegin_exec (env : Env) (session : Session) (w : World) (cmd : Cmd)
    (hpty : session.isPty = false)
    (hcmd : env.newCmd (env.LookupUser session.User) "" "" w.srv.deviceName session.Command =
      some cmd) :
    sessionHandlerBegin env session w =
      (.returned (.exec cmd),
       { srv := w.srv
         trace := w.trace ++ [.log "New session request", .keepAlive w.srv.keepAliveInterval,
             .pipes cmd, .log "Command started", .start cmd] ++ warnEvents (env.cmdStart cmd) ++
           [.copyIn cmd, .copyOut cmd, .wait cmd] }) := by
  simp only [sessionHandlerBegin, hpty, World.emit]
  simp [hcmd, warnIf_eq, List.append_assoc]

theorem sessionHandlerEnd_srv (b : Blocked) (err : Option String) (w : World) :
    (sessionHandlerEnd b err w).srv = w.srv := by
  cases b <;> cases err <;> rfl

theorem killed_sessionHandlerEnd (b : Blocked) (err : Option String) (w : World) :
    killed (sessionHandlerEnd b err w).trace = killed w.trace := by
  cases b <;> cases err <;>
    simp [sessionHandlerEnd, World.warnIf, World.emit, killed_append, killed]

/-- C2 as amended: after a PTY session that was dispatched successfully and
whose process exits by itself, with no connection close, the handler has
returned and the registry still maps the session id to the command of the
session: the table is the initial one with that entry inserted. The entry
goes away only when the close callback later runs for that id. -/
theorem sessionHandler_pty_entry_remains (env : Env) (session : Session) (w : World)
    (scmd : Cmd) (pts : String) (u : User) (id : String)
    (hpty : session.isPty = true)
    (hcmd : newShellCmd env w.srv session.User session.Term = some scmd)
    (hpts : (env.startPty scmd).1 = some pts)
    (hu : env.LookupUser session.User = some u)
    (hid : session.ctxSessionID = .str id) :
    (sessionHandler env session w).1 = .returned () ∧
    (sessionHandler env session w).2.srv.cmds = mapInsert w.srv.cmds id scmd ∧
    mapLookup (sessionHandler env session w).2.srv.cmds id = some scmd ∧
    killed (sessionHandler env session w).2.trace = killed w.trace ∧
    mapLookup (closeCallback id (sessionHandler env session w).2).srv.cmds id = none := by
  have hb := sessionHandlerBegin_pty env session w scmd pts u id hpty hcmd hpts hu hid
  have hs : (sessionHandler env session w).1 = .returned () ∧
      (sessionHandler env session w).2.srv.cmds = mapInsert w.srv.cmds id scmd ∧
      killed (sessionHandler env session w).2.trace = killed w.trace := by
    simp only [sessionHandler, hb, sessionHandlerEnd_srv, killed_sessionHandlerEnd]
    simp [killed_append, killed, killed_warnEvents]
  obtain ⟨h1, h2, h3⟩ := hs
  have h4 : mapLookup (sessionHandler env session w).2.srv.cmds id = some scmd := by
    rw [h2]
    exact mapLookup_mapInsert_self _ _ _
  refine ⟨h1, h2, h4, h3, ?_⟩
  rw [closeCallback_present _ id scmd h4]
  exact mapLookup_mapDelete_self _ _

/-- Witness of the amended C2: the session of alice on a fresh server. -/
theorem sessionHandler_pty_entry_remains_witness :
    ptyAlice.isPty = true ∧
    newShellCmd envStd world0.srv ptyAlice.User ptyAlice.Term = some aliceShell ∧
    (sessionHandler envStd ptyAlice world0).1 = .returned () ∧
    mapLookup (sessionHandler envStd ptyAlice world0).2.srv.cmds "sess-1" = some aliceShell :=
  ⟨rfl, by decide,
   (sessionHandler_pty_entry_remains envStd ptyAlice world0 aliceShell "/dev/pts/3"
      { UID := 1000, Shell := "/bin/bash" } "sess-1" rfl (by decide) (by decide) (by decide)
      rfl).1,
   (sessionHandler_pty_entry_remains envStd ptyAlice world0 aliceShell "/dev/pts/3"
      { UID := 1000, Shell := "/bin/bash" } "sess-1" rfl (by decide) (by decide) (by decide)
      rfl).2.2.1⟩

/-- Counterexample to C2 as stated: the PTY session of alice is dispatched,
its shell exits by itself, the connection is never closed, the handler
returns, and the registry is not without an entry for the session id. -/
theorem sessionHandler_pty_unregisters_counterexample :
    ptyAlice.isPty = true ∧
    (sessionHandler envStd ptyAlice world0).1 = .returned () ∧
    Event.wait aliceShell ∈ (sessionHandler envStd ptyAlice world0).2.trace ∧
    Event.connClose ∉ (sessionHandler envStd ptyAlice world0).2.trace ∧
    ¬ (mapLookup (sessionHandler envStd ptyAlice world0).2.srv.cmds "sess-1" = none) := by
  decide

theorem pty_session_killed_on_close (env : Env) (session : Session) (w : World)
    (scmd : Cmd) (pts : String) (u : User) (id : String) (connErr killedErr : Option String)
    (hpty : session.isPty = true)
    (hcmd : newShellCmd env w.srv session.User session.Term = some scmd)
    (hpts : (env.startPty scmd).1 = some pts)
    (hu : env.LookupUser session.User = some u)
    (hid : session.ctxSessionID = .str id) :
    killed (sessionClosedWhileWaiting env session connErr killedErr w).2.trace =
      killed w.trace ++ [scmd] ∧
    mapLookup (sessionClosedWhileWaiting env session connErr killedErr w).2.srv.cmds id =
      none := by
  have hb := sessionHandlerBegin_pty env session w scmd pts u id hpty hcmd hpts hu hid
  simp only [sessionClosedWhileWaiting, hb, hid, ConnCallback_Close_str,
    sessionHandlerEnd_srv, killed_sessionHandlerEnd]
  rw [closeCallback_present _ id scmd (mapLookup_mapInsert_self _ _ _)]
  refine ⟨?_, mapLookup_mapDelete_self _ _⟩
  simp [World.emit, killed_append, killed, killed_warnEvents]

/-- C3, the exec half on the code: an exec session whose command was built
and started is blocked in Wait with the registry untouched, so closing its
connection kills only what was registered under the id before the session,
and nothing at all when the id was not registered. -/
theorem exec_session_not_killed_on_close (env : Env) (session : Session) (w : World)
    (cmd : Cmd) (id : String) (connErr : Option String)
    (hpty : session.isPty = false)
    (hcmd : env.newCmd (env.LookupUser session.User) "" "" w.srv.deviceName session.Command =
      some cmd)
    (hid : session.ctxSessionID = .str id) :
    (sessionHandlerBegin env session w).1 = .returned (.exec cmd) ∧
    Event.start cmd ∈ (sessionHandlerBegin env session w).2.trace ∧
    (sessionHandlerBegin env session w).2.srv = w.srv ∧
    killed ((ConnCallback session.ctxSessionID (netConn connErr)).Close
        (sessionHandlerBegin env session w).2).2.trace =
      killed w.trace ++ (mapLookup w.srv.cmds id).toList ∧
    (mapLookup w.srv.cmds id = none →
      killed ((ConnCallback session.ctxSessionID (netConn connErr)).Close
        (sessionHandlerBegin env session w).2).2.trace = killed w.trace) := by
  have hb := sessionHandlerBegin_exec env session w cmd hpty hcmd
  have hk : killed ((ConnCallback session.ctxSessionID (netConn connErr)).Close
        (sessionHandlerBegin env session w).2).2.trace =
      killed w.trace ++ (mapLookup w.srv.cmds id).toList := by
    rw [hb, hid, ConnCallback_Close_str]
    simp [World.emit, killed_append, killed, killed_warnEvents, killed_closeCallback]
  refine ⟨by rw [hb], ?_, by rw [hb], hk, ?_⟩
  · rw [hb]
    simp
  · intro hnone
    rw [hk, hnone]
    simp

/-- Witness of the exec half of C3: bob runs ls on a fresh server, the
connection is closed while ls runs, and no kill is sent. -/
theorem exec_session_not_killed_on_close_witness :
    execBob.isPty = false ∧
    (sessionHandlerBegin envStd execBob world0).1 = .returned (.exec bobLs) ∧
    Event.start bobLs ∈ (sessionHandlerBegin envStd execBob world0).2.trace ∧
    killed ((ConnCallback execBob.ctxSessionID (netConn none)).Close
        (sessionHandlerBegin envStd execBob world0).2).2.trace = killed world0.trace :=
  ⟨rfl,
   (exec_session_not_killed_on_close envStd execBob world0 bobLs "sess-2" none rfl
      (by decide) rfl).1,
   (exec_session_not_killed_on_close envStd execBob world0 bobLs "sess-2" none rfl
      (by decide) rfl).2.1,
   (exec_session_not_killed_on_close envStd execBob world0 bobLs "sess-2" none rfl
      (by decide) rfl).2.2.2.2 (by decide)⟩

/-- C10 on the code: a PTY session for a name without a local account never
returns from the handler. It panics on a nil user, in newShellCmd or at the
latest at the Chown call, with the registry unchanged, no kill sent and no
login-accounting record written. -/
theorem sessionHandler_pty_nil_user_panics (env : Env) (session : Session) (w : World)
    (hpty : session.isPty = true)
    (hu : env.LookupUser session.User = none) :
    (∃ why, (sessionHandler env session w).1 = .panicked why) ∧
    (sessionHandler env session w).2.srv = w.srv ∧
    (∀ pts user addr, Event.utmpStart pts user addr ∈ (sessionHandler env session w).2.trace →
      Event.utmpStart pts user addr ∈ w.trace) := by
  have hb : ∃ why evs, sessionHandlerBegin env session w =
        (.panicked why, { srv := w.srv, trace := w.trace ++ evs }) ∧
      ∀ pts user addr, Event.utmpStart pts user addr ∉ evs := by
    simp only [sessionHandlerBegin, hpty, if_true, hu, warnIf_eq, World.emit]
    split
    · exact ⟨"nil pointer dereference",
        [.log "New session request", .keepAlive w.srv.keepAliveInterval], by simp, by simp⟩
    · rename_i scmd _
      split
      · refine ⟨"nil pointer dereference",
          [.log "New session request", .keepAlive w.srv.keepAliveInterval,
            .startPty scmd] ++ warnEvents (env.startPty scmd).2, by simp, ?_⟩
        intro pts user addr
        cases (env.startPty scmd).2 <;> simp [warnEvents]
      · refine ⟨"nil pointer dereference",
          [.log "New session request", .keepAlive w.srv.keepAliveInterval,
            .startPty scmd] ++ warnEvents (env.startPty scmd).2, by simp, ?_⟩
        intro pts user addr
        cases (env.startPty scmd).2 <;> simp [warnEvents]
  obtain ⟨why, evs, hbe, hev⟩ := hb
  simp only [sessionHandler, hbe]
  refine ⟨⟨why, rfl⟩, trivial, ?_⟩
  intro pts user addr h
  rcases List.mem_append.mp h with h1 | h1
  · exact h1
  · exact absurd h1 (hev pts user addr)

/-- Witness of C10 on the code: for the name ghost the handler panics; when
SHELL is set and newCmd returns for a nil user, the shell has been started
on a pty before the panic. -/
theorem sessionHandler_pty_nil_user_panics_witness :
    ptyGhost.isPty = true ∧
    envStd.LookupUser ptyGhost.User = none ∧
    (∃ why, (sessionHandler envStd ptyGhost world0).1 = .panicked why) ∧
    (sessionHandler envLenient ptyGhost world0).1 = .panicked "nil pointer dereference" ∧
    (sessionHandler envLenient ptyGhost world0).2.trace =
      [.log "New session request", .keepAlive 30,
       .startPty { Path := "/bin/sh", Args := ["/bin/sh", "--login"], Pid := 4999 }] :=
  ⟨rfl, by decide,
   (sessionHandler_pty_nil_user_panics envStd ptyGhost world0 rfl (by decide)).1,
   by decide, by decide⟩

/-! ## Authentication -/

/-- C6: publicKeyHandler denies (a) when the claimed name has no local
account, and then it returns at once with the trace unchanged, so the backend
is not called; (b) when the call it makes to the backend returns an error;
(c) when the signature the backend returned fails the PKCS1v15 check against
the presented RSA key. Each case holds whatever the other inputs are; in (b)
and (c) authData is non-nil, as it must be for the backend to be called. -/
theorem publicKeyHandler_denies (env : Env) (user : String) (key : PublicKey) (w : World) :
    (env.LookupUser user = none →
      publicKeyHandler env user key w = (.returned false, w)) ∧
    (∀ d, w.srv.authData = some d →
      (∀ sigBytes, env.jsonMarshal user w.srv.deviceName = .ok sigBytes →
        ∃ e, w.srv.api.AuthPublicKey
          { Fingerprint := env.FingerprintLegacyMD5 key, Data := sigBytes } d.Token = .error e) →
      (publicKeyHandler env user key w).1 = .returned false) ∧
    (∀ d, w.srv.authData = some d →
      (∀ sigBytes res digest pubKey, env.jsonMarshal user w.srv.deviceName = .ok sigBytes →
        w.srv.api.AuthPublicKey
          { Fingerprint := env.FingerprintLegacyMD5 key, Data := sigBytes } d.Token = .ok res →
        env.base64Decode res.Signature = some digest →
        key.crypto = some (.rsa pubKey) →
        env.VerifyPKCS1v15 pubKey (env.sha256 sigBytes) digest = false) →
      (publicKeyHandler env user key w).1 = .returned false) := by
  refine ⟨?_, ?_, ?_⟩
  · intro h
    simp [publicKeyHandler, h]
  · intro d hd herr
    cases hu : env.LookupUser user with
    | none => simp [publicKeyHandler, hu]
    | some u =>
      cases hj : env.jsonMarshal user w.srv.deviceName with
      | error e => simp [publicKeyHandler, hu, hj]
      | ok sigBytes =>
        obtain ⟨e, he⟩ := herr sigBytes hj
        simp [publicKeyHandler, hu, hj, hd, World.emit, he]
  · intro d hd hbad
    cases hu : env.LookupUser user with
    | none => simp [publicKeyHandler, hu]
    | some u =>
      cases hj : env.jsonMarshal user w.srv.deviceName with
      | error e => simp [publicKeyHandler, hu, hj]
      | ok sigBytes =>
        cases ha : w.srv.api.AuthPublicKey
            { Fingerprint := env.FingerprintLegacyMD5 key, Data := sigBytes } d.Token with
        | error e => simp [publicKeyHandler, hu, hj, hd, World.emit, ha]
        | ok res =>
          cases hb : env.base64Decode res.Signature with
          | none => simp [publicKeyHandler, hu, hj, hd, World.emit, ha, hb]
          | some digest =>
            cases hk : key.crypto with
            | none => simp [publicKeyHandler, hu, hj, hd, World.emit, ha, hb, hk]
            | some ck =>
              cases ck with
              | other alg => simp [publicKeyHandler, hu, hj, hd, World.emit, ha, hb, hk]
              | rsa pubKey =>
                have hv := hbad sigBytes res digest pubKey hj ha hb hk
                simp [publicKeyHandler, hu, hj, hd, World.emit, ha, hb, hk, hv]

/-- Witness of C6: ghost has no account; the backend refuses alice; the
backend answers alice with a signature that does not verify. With the right
signature the same key is accepted, so the three denials are not vacuous. -/
theorem publicKeyHandler_denies_witness :
    envStd.LookupUser "ghost" = none ∧
    publicKeyHandler envStd "ghost" rsaKey world0 = (.returned false, world0) ∧
    (publicKeyHandler envStd "alice" rsaKey world0).1 = .returned false ∧
    (publicKeyHandler envStd "alice" rsaKey (worldApi (apiSign "bad"))).1 = .returned false ∧
    (publicKeyHandler envStd "alice" rsaKey (worldApi (apiSign "alice@dev"))).1 =
      .returned true :=
  ⟨by decide,
   (publicKeyHandler_denies envStd "ghost" rsaKey world0).1 (by decide),
   (publicKeyHandler_denies envStd "alice" rsaKey world0).2.1 { Token := "tok" } rfl
     (fun _ _ => ⟨"unauthorized", rfl⟩),
   (publicKeyHandler_denies envStd "alice" rsaKey (worldApi (apiSign "bad"))).2.2
     { Token := "tok" } rfl
     (by
       intro sigBytes res digest pubKey hj ha hb hk
       cases hj
       cases ha
       cases hb
       cases hk
       decide),
   by decide⟩

/-- C7: with a non-empty configured hash h, passwordHandler returns
VerifyPasswordHash(h, p); the result is the same for every claimed name, the
only effects are the hash check and one log line, and the handler computes
the same whatever AuthUser is. With an empty hash it returns AuthUser(u, p). -/
theorem passwordHandler_modes (env : Env) (u p : String) (w : World) :
    (w.srv.singleUserPassword ≠ "" →
      (passwordHandler env u p w).1 = env.VerifyPasswordHash w.srv.singleUserPassword p ∧
      (∀ u2, (passwordHandler env u2 p w).1 = (passwordHandler env u p w).1) ∧
      (∃ msg, (passwordHandler env u p w).2.trace =
        w.trace ++ [.verifyPasswordHash w.srv.singleUserPassword p, .log msg]) ∧
      (∀ f, passwordHandler { env with AuthUser := f } u p w = passwordHandler env u p w)) ∧
    (w.srv.singleUserPassword = "" →
      (passwordHandler env u p w).1 = env.AuthUser u p ∧
      (∃ msg, (passwordHandler env u p w).2.trace = w.trace ++ [.authUser u p, .log msg])) := by
  constructor
  · intro h
    refine ⟨?_, ?_, ?_, ?_⟩
    · cases hv : env.VerifyPasswordHash w.srv.singleUserPassword p <;>
        simp [passwordHandler, h, hv]
    · intro u2
      cases hv : env.VerifyPasswordHash w.srv.singleUserPassword p <;>
        simp [passwordHandler, h, hv]
    · cases hv : env.VerifyPasswordHash w.srv.singleUserPassword p <;>
        simp [passwordHandler, h, hv, World.emit]
    · intro f
      simp [passwordHandler, h]
  · intro h
    constructor
    · cases hv : env.AuthUser u p <;> simp [passwordHandler, h, hv]
    · cases hv : env.AuthUser u p <;> simp [passwordHandler, h, hv, World.emit]

/-- Witness of C7: in single-user mode root gets in with the configured
password although the OS would refuse it; in OS mode the OS decides. -/
theorem passwordHandler_modes_witness :
    worldSingle.srv.singleUserPassword ≠ "" ∧
    (passwordHandler envStd "root" "secret" worldSingle).1 =
      envStd.VerifyPasswordHash "hash-of-secret" "secret" ∧
    world0.srv.singleUserPassword = "" ∧
    (passwordHandler envStd "alice" "wonderland" world0).1 =
      envStd.AuthUser "alice" "wonderland" :=
  ⟨by decide,
   ((passwordHandler_modes envStd "root" "secret" worldSingle).1 (by decide)).1,
   by decide,
   ((passwordHandler_modes envStd "alice" "wonderland" world0).2 (by decide)).1⟩

theorem passwordHandler_NewServer (env : Env) (api : Api)
    (authData : Option DeviceAuthResponse) (privateKey : String) (keepAliveInterval : Int)
    (h u p : String) (tr : List Event) :
    (NewServer api authData privateKey keepAliveInterval h).singleUserPassword = "" ∧
    (passwordHandler env u p
      { srv := NewServer api authData privateKey keepAliveInterval h, trace := tr }).1 =
      env.AuthUser u p := by
  refine ⟨rfl, ?_⟩
  cases hv : env.AuthUser u p <;> simp [passwordHandler, NewServer, hv]

/-- C8 on the code: NewServer called with the non-empty hash hash-of-secret
builds a server whose singleUserPassword is empty; its password handler asks
AuthUser and refuses root with the configured password, which
VerifyPasswordHash accepts. -/
theorem NewServer_drops_singleUserPassword :
    (NewServer apiDeny (some { Token := "tok" }) "/etc/ssh.key" 30
      "hash-of-secret").singleUserPassword = "" ∧
    envStd.VerifyPasswordHash "hash-of-secret" "secret" = true ∧
    envStd.AuthUser "root" "secret" = false ∧
    (passwordHandler envStd "root" "secret"
      { srv := NewServer apiDeny (some { Token := "tok" }) "/etc/ssh.key" 30 "hash-of-secret"
        trace := [] }).1 = false ∧
    (passwordHandler envStd "root" "secret"
      { srv := NewServer apiDeny (some { Token := "tok" }) "/etc/ssh.key" 30 "hash-of-secret"
        trace := [] }).2.trace = [.authUser "root" "secret", .log "Failed password"] := by
  decide

/-! ## The command of an interactive session -/

/-- C11: for an existing local user u and terminal type t, newShellCmd
returns the command that newCmd builds for u from the argument vector
shell, --login, where shell is the value of SHELL when that is not empty and
the shell of u otherwise, and with terminal type t, or xterm when t is
empty. With SHELL unset, a user whose shell is /bin/bash and
t = xterm-256color give /bin/bash --login with terminal type
xterm-256color. -/
theorem newShellCmd_login_shell (env : Env) (s : Server) (username t : String) (u : User)
    (hu : env.LookupUser username = some u) :
    (∃ shell term,
      newShellCmd env s username t =
        env.newCmd (some u) shell term s.deviceName [shell, "--login"] ∧
      (env.Getenv "SHELL" ≠ "" → shell = env.Getenv "SHELL") ∧
      (env.Getenv "SHELL" = "" → shell = u.Shell) ∧
      (t ≠ "" → term = t) ∧
      (t = "" → term = "xterm")) ∧
    (env.Getenv "SHELL" = "" → u.Shell = "/bin/bash" → t = "xterm-256color" →
      newShellCmd env s username t =
        env.newCmd (some u) "/bin/bash" "xterm-256color" s.deviceName
          ["/bin/bash", "--login"]) := by
  constructor
  · by_cases hs : env.Getenv "SHELL" = "" <;> by_cases ht : t = ""
    · exact ⟨u.Shell, "xterm", by simp [newShellCmd, hu, hs, ht], by simp [hs], by simp,
        by simp [ht], by simp⟩
    · exact ⟨u.Shell, t, by simp [newShellCmd, hu, hs, ht], by simp [hs], by simp,
        by simp, by simp [ht]⟩
    · exact ⟨env.Getenv "SHELL", "xterm", by simp [newShellCmd, hu, hs, ht], by simp,
        by simp [hs], by simp [ht], by simp⟩
    · exact ⟨env.Getenv "SHELL", t, by simp [newShellCmd, hu, hs, ht], by simp,
        by simp [hs], by simp, by simp [ht]⟩
  · intro hs hsh ht
    subst ht
    simp [newShellCmd, hu, hs, hsh]

/-- Witness of C11: alice on the server dev, SHELL unset, terminal type
xterm-256color; the command built is the shell /bin/bash --login. -/
theorem newShellCmd_login_shell_witness :
    envStd.LookupUser "alice" = some { UID := 1000, Shell := "/bin/bash" } ∧
    envStd.Getenv "SHELL" = "" ∧
    newShellCmd envStd world0.srv "alice" "xterm-256color" =
      envStd.newCmd (some { UID := 1000, Shell := "/bin/bash" }) "/bin/bash" "xterm-256color"
        "dev" ["/bin/bash", "--login"] ∧
    newShellCmd envStd world0.srv "alice" "xterm-256color" = some aliceShell ∧
    aliceShell.Args = ["/bin/bash", "--login"] :=
  ⟨by decide, by decide,
   (newShellCmd_login_shell envStd world0.srv "alice" "xterm-256color"
      { UID := 1000, Shell := "/bin/bash" } (by decide)).2 (by decide) rfl rfl,
   by decide, rfl⟩

/-! ## Order of the effects of an interactive session -/

theorem lockHeldFrom_append (held : Bool) (xs ys : List Event) :
    lockHeldFrom held (xs ++ ys) = lockHeldFrom (lockHeldFrom held xs) ys := by
  induction xs generalizing held with
  | nil => rfl
  | cons e t ih => cases e <;> simp [lockHeldFrom, ih]

theorem lockHeldFrom_warnEvents (held : Bool) (err : Option String) :
    lockHeldFrom held (warnEvents err) = held := by
  cases err <;> rfl

theorem mem_warnEvents (e : Event) (err : Option String) (h : e ∈ warnEvents err) :
    ∃ m, e = .warn m := by
  cases err with
  | none => simp [warnEvents] at h
  | some m => exact ⟨m, by simpa [warnEvents] using h⟩

theorem registerCmd_eq (id : String) (scmd : Cmd) (w : World) :
    registerCmd id scmd w =
      { srv := { w.srv with cmds := mapInsert w.srv.cmds id scmd }
        trace := w.trace ++ [.lock, .unlock] } := by
  simp [registerCmd, World.emit]

theorem sessionHandlerEnd_pty (scmd : Cmd) (pts : String) (ut : Utmp) (err : Option String)
    (w : World) :
    sessionHandlerEnd (.pty scmd pts ut) err w =
      { srv := w.srv
        trace := w.trace ++ warnEvents err ++ [.log "Session ended", .utmpEnd ut] } := by
  cases err <;> simp [sessionHandlerEnd, World.warnIf, World.emit, warnEvents]

/-- C12: in a successfully dispatched PTY session the handler first writes
the login-accounting start record for the pty, the user name and the remote
address, with the registry still as it was; then it registers the command
under the session id in one lock and unlock; then it calls Wait, with the
command registered and the mutex free; after Wait has returned, whatever
happened meanwhile, it only logs and ends the accounting record with the
token that the start returned, without taking the lock. -/
theorem sessionHandler_pty_order (env : Env) (session : Session) (w : World)
    (scmd : Cmd) (pts : String) (u : User) (id : String)
    (hpty : session.isPty = true)
    (hcmd : newShellCmd env w.srv session.User session.Term = some scmd)
    (hpts : (env.startPty scmd).1 = some pts)
    (hu : env.LookupUser session.User = some u)
    (hid : session.ctxSessionID = .str id) :
    ∃ (pre : List Event) (ut : Utmp) (w1 : World),
      ut = env.utmpStartSession pts session.User session.RemoteAddr ∧
      (∀ e ∈ pre, e ≠ .lock ∧ e ≠ .unlock ∧ e ≠ .wait scmd ∧ e ≠ .utmpEnd ut ∧
        e ≠ .utmpStart pts session.User session.RemoteAddr) ∧
      w1.srv = w.srv ∧
      w1.trace = w.trace ++ pre ++ [.utmpStart pts session.User session.RemoteAddr] ∧
      sessionHandlerBegin env session w =
        (.returned (.pty scmd pts ut), (registerCmd id scmd w1).emit (.wait scmd)) ∧
      (sessionHandlerBegin env session w).2.trace =
        w.trace ++ pre ++
          [.utmpStart pts session.User session.RemoteAddr, .lock, .unlock, .wait scmd] ∧
      mapLookup (registerCmd id scmd w1).srv.cmds id = some scmd ∧
      mapLookup (sessionHandlerBegin env session w).2.srv.cmds id = some scmd ∧
      lockHeld (registerCmd id scmd w1).trace = false ∧
      lockHeld (sessionHandlerBegin env session w).2.trace = false ∧
      (∀ err w2, sessionHandlerEnd (.pty scmd pts ut) err w2 =
        { srv := w2.srv
          trace := w2.trace ++ warnEvents err ++ [.log "Session ended", .utmpEnd ut] }) ∧
      (sessionHandler env session w).2.trace =
        w.trace ++ pre ++
          [.utmpStart pts session.User session.RemoteAddr, .lock, .unlock, .wait scmd] ++
          warnEvents (env.Wait scmd) ++ [.log "Session ended", .utmpEnd ut] ∧
      lockHeld (sessionHandler env session w).2.trace = false := by
  have hb := sessionHandlerBegin_pty env session w scmd pts u id hpty hcmd hpts hu hid
  refine ⟨[.log "New session request", .keepAlive w.srv.keepAliveInterval, .startPty scmd] ++
      warnEvents (env.startPty scmd).2 ++ [.chown pts u.UID] ++
      warnEvents (env.Chown pts u.UID) ++ [.log "Session started"],
    env.utmpStartSession pts session.User session.RemoteAddr,
    { srv := w.srv
      trace := w.trace ++ ([.log "New session request", .keepAlive w.srv.keepAliveInterval,
          .startPty scmd] ++ warnEvents (env.startPty scmd).2 ++ [.chown pts u.UID] ++
        warnEvents (env.Chown pts u.UID) ++ [.log "Session started"]) ++
        [.utmpStart pts session.User session.RemoteAddr] },
    rfl, ?_, rfl, rfl, ?_, ?_, ?_, ?_, ?_, ?_, ?_, ?_, ?_⟩
  · intro e he
    simp only [List.mem_append, List.mem_cons, List.mem_singleton, List.not_mem_nil,
      or_false] at he
    rcases he with ((((h | h | h) | h) | h) | h) | h <;>
      first
      | (subst h; simp)
      | (obtain ⟨m, rfl⟩ := mem_warnEvents e _ h; simp)
  · rw [hb, registerCmd_eq]
    simp [World.emit, List.append_assoc]
  · rw [hb]
    simp [List.append_assoc]
  · rw [registerCmd_eq]
    exact mapLookup_mapInsert_self _ _ _
  · rw [hb]
    exact mapLookup_mapInsert_self _ _ _
  · rw [registerCmd_eq]
    simp [lockHeld, lockHeldFrom_append, lockHeldFrom]
  · rw [hb]
    simp [lockHeld, lockHeldFrom_append, lockHeldFrom]
  · intro err w2
    exact sessionHandlerEnd_pty scmd pts _ err w2
  · simp only [sessionHandler, hb, Blocked.cmd, sessionHandlerEnd_pty]
    simp [List.append_assoc]
  · simp only [sessionHandler, hb, Blocked.cmd, sessionHandlerEnd_pty]
    simp [lockHeld, lockHeldFrom_append, lockHeldFrom, lockHeldFrom_warnEvents]

/-- Witness of C12: the session of alice on a fresh server. When the
handler blocks in Wait the shell is registered under sess-1 and the mutex is
free; the whole trace shows the order start record, lock, unlock, wait, end
record. -/
theorem sessionHandler_pty_order_witness :
    ptyAlice.isPty = true ∧
    newShellCmd envStd world0.srv ptyAlice.User ptyAlice.Term = some aliceShell ∧
    mapLookup (sessionHandlerBegin envStd ptyAlice world0).2.srv.cmds "sess-1" =
      some aliceShell ∧
    lockHeld (sessionHandlerBegin envStd ptyAlice world0).2.trace = false ∧
    (sessionHandler envStd ptyAlice world0).2.trace =
      [.log "New session request", .keepAlive 30, .startPty aliceShell,
       .chown "/dev/pts/3" 1000, .log "Session started",
       .utmpStart "/dev/pts/3" "alice" "10.0.0.5:50022", .lock, .unlock, .wait aliceShell,
       .log "Session ended", .utmpEnd { token := 7 }] := by
  obtain ⟨_, _, _, _, _, _, _, _, _, _, h8, _, h10, _⟩ :=
    sessionHandler_pty_order envStd ptyAlice world0 aliceShell "/dev/pts/3"
      { UID := 1000, Shell := "/bin/bash" } "sess-1" rfl (by decide) (by decide) (by decide) rfl
  exact ⟨rfl, by decide, h8, h10, by decide⟩

/-! ## When a public key is accepted -/

theorem publicKeyHandler_returns (env : Env) (user : String) (key : PublicKey) (w : World)
    (d : DeviceAuthResponse) (hd : w.srv.authData = some d) :
    ∃ b, (publicKeyHandler env user key w).1 = .returned b := by
  cases hu : env.LookupUser user with
  | none => exact ⟨false, by simp [publicKeyHandler, hu]⟩
  | some u =>
    cases hj : env.jsonMarshal user w.srv.deviceName with
    | error e => exact ⟨false, by simp [publicKeyHandler, hu, hj]⟩
    | ok sigBytes =>
      cases ha : w.srv.api.AuthPublicKey
          { Fingerprint := env.FingerprintLegacyMD5 key, Data := sigBytes } d.Token with
      | error e => exact ⟨false, by simp [publicKeyHandler, hu, hj, hd, World.emit, ha]⟩
      | ok res =>
        cases hb : env.base64Decode res.Signature with
        | none => exact ⟨false, by simp [publicKeyHandler, hu, hj, hd, World.emit, ha, hb]⟩
        | some digest =>
          cases hk : key.crypto with
          | none =>
            exact ⟨false, by simp [publicKeyHandler, hu, hj, hd, World.emit, ha, hb, hk]⟩
          | some ck =>
            cases ck with
            | other alg =>
              exact ⟨false, by simp [publicKeyHandler, hu, hj, hd, World.emit, ha, hb, hk]⟩
            | rsa pubKey =>
              exact ⟨env.VerifyPKCS1v15 pubKey (env.sha256 sigBytes) digest, by
                cases hv : env.VerifyPKCS1v15 pubKey (env.sha256 sigBytes) digest <;>
                  simp [publicKeyHandler, hu, hj, hd, World.emit, ha, hb, hk, hv]⟩

/-- C13: publicKeyHandler returns true exactly when the claimed name has a
local account, the record of user name and device name has a JSON
serialization, the backend call with the legacy MD5 fingerprint of the key,
those bytes and the backend token succeeds, the signature it returns decodes
from base64, the presented key is an RSA key, and the PKCS1v15 check of the
decoded signature against the SHA-256 digest of the bytes sent succeeds. A
key that is not an RSA key is never accepted, and is refused outright
whenever the backend token can be read. -/
theorem publicKeyHandler_grants_iff (env : Env) (user : String) (key : PublicKey) (w : World) :
    ((publicKeyHandler env user key w).1 = .returned true ↔
      (∃ u, env.LookupUser user = some u) ∧
      ∃ sigBytes, env.jsonMarshal user w.srv.deviceName = .ok sigBytes ∧
      ∃ d, w.srv.authData = some d ∧
      ∃ res, w.srv.api.AuthPublicKey
          { Fingerprint := env.FingerprintLegacyMD5 key, Data := sigBytes } d.Token = .ok res ∧
      ∃ digest, env.base64Decode res.Signature = some digest ∧
      ∃ pubKey, key.crypto = some (.rsa pubKey) ∧
        env.VerifyPKCS1v15 pubKey (env.sha256 sigBytes) digest = true) ∧
    ((∀ pubKey, key.crypto ≠ some (.rsa pubKey)) →
      (publicKeyHandler env user key w).1 ≠ .returned true ∧
      (∀ d, w.srv.authData = some d →
        (publicKeyHandler env user key w).1 = .returned false)) := by
  have main : (publicKeyHandler env user key w).1 = .returned true ↔
      (∃ u, env.LookupUser user = some u) ∧
      ∃ sigBytes, env.jsonMarshal user w.srv.deviceName = .ok sigBytes ∧
      ∃ d, w.srv.authData = some d ∧
      ∃ res, w.srv.api.AuthPublicKey
          { Fingerprint := env.FingerprintLegacyMD5 key, Data := sigBytes } d.Token = .ok res ∧
      ∃ digest, env.base64Decode res.Signature = some digest ∧
      ∃ pubKey, key.crypto = some (.rsa pubKey) ∧
        env.VerifyPKCS1v15 pubKey (env.sha256 sigBytes) digest = true := by
    cases hu : env.LookupUser user with
    | none => simp [publicKeyHandler, hu]
    | some u =>
      cases hj : env.jsonMarshal user w.srv.deviceName with
      | error e => simp [publicKeyHandler, hu, hj]
      | ok sigBytes =>
        cases hd : w.srv.authData with
        | none => simp [publicKeyHandler, hu, hj, hd]
        | some d =>
          cases ha : w.srv.api.AuthPublicKey
              { Fingerprint := env.FingerprintLegacyMD5 key, Data := sigBytes } d.Token with
          | error e => simp [publicKeyHandler, hu, hj, hd, World.emit, ha]
          | ok res =>
            cases hb : env.base64Decode res.Signature with
            | none => simp [publicKeyHandler, hu, hj, hd, World.emit, ha, hb]
            | some digest =>
              cases hk : key.crypto with
              | none => simp [publicKeyHandler, hu, hj, hd, World.emit, ha, hb, hk]
              | some ck =>
                cases ck with
                | other alg => simp [publicKeyHandler, hu, hj, hd, World.emit, ha, hb, hk]
                | rsa pubKey =>
                  cases hv : env.VerifyPKCS1v15 pubKey (env.sha256 sigBytes) digest <;>
                    simp [publicKeyHandler, hu, hj, hd, World.emit, ha, hb, hk, hv]
  refine ⟨main, ?_⟩
  intro hk
  constructor
  · intro ht
    obtain ⟨_, _, _, _, _, _, _, _, _, pubKey, hp, _⟩ := main.mp ht
    exact hk pubKey hp
  · intro d hd
    obtain ⟨b, hb⟩ := publicKeyHandler_returns env user key w d hd
    cases b with
    | false => exact hb
    | true =>
      obtain ⟨_, _, _, _, _, _, _, _, _, pubKey, hp, _⟩ := main.mp hb
      exact absurd hp (hk pubKey)

/-- Witness of C13: alice is accepted with her RSA key when the backend
returns the matching signature; with the same answer of the backend a key of
another algorithm and a key without a crypto key are refused. -/
theorem publicKeyHandler_grants_iff_witness :
    (publicKeyHandler envStd "alice" rsaKey (worldApi (apiSign "alice@dev"))).1 =
      .returned true ∧
    (∀ pubKey, edKey.crypto ≠ some (.rsa pubKey)) ∧
    (publicKeyHandler envStd "alice" edKey (worldApi (apiSign "alice@dev"))).1 =
      .returned false ∧
    (publicKeyHandler envStd "alice" bareKey (worldApi (apiSign "alice@dev"))).1 ≠
      .returned true :=
  ⟨(publicKeyHandler_grants_iff envStd "alice" rsaKey (worldApi (apiSign "alice@dev"))).1.mpr
     ⟨⟨{ UID := 1000, Shell := "/bin/bash" }, by decide⟩,
      ("alice@dev").toList.map Char.toNat, rfl,
      { Token := "tok" }, rfl,
      { Signature := "alice@dev" }, rfl,
      ("alice@dev").toList.map Char.toNat, rfl,
      { N := 3233, E := 17 }, rfl, by decide⟩,
   (by intro pubKey h; simp [edKey] at h),
   ((publicKeyHandler_grants_iff envStd "alice" edKey (worldApi (apiSign "alice@dev"))).2
      (by intro pubKey h; simp [edKey] at h)).2 { Token := "tok" } rfl,
   ((publicKeyHandler_grants_iff envStd "alice" bareKey (worldApi (apiSign "alice@dev"))).2
      (by intro pubKey h; simp [bareKey] at h)).1⟩

end Sshd
